import Mathlib

/-!
Shallow embedding of the SMS conversation core of the repository:
`services/conversation_handler.py`, `services/retry_persistence_scheduler.py`,
`services/contact_monitor.py` (follow-up creation), `services/sms_service.py`
(gateway success/failure), and the conversation-relevant columns of
`database/enhanced_models.py`.

Modelling conventions:
* `datetime.utcnow()` is an explicit `now : Nat` parameter (seconds);
  `timedelta(hours=2)` is `7200`, `timedelta(minutes=10)` is `600`.
  A comparison `last_retry_at <= utcnow() - 2h` is rendered as
  `t + 7200 ≤ now` to stay in `Nat`.
* The store is restricted to one contact with one conversation (all claims
  are per-contact; the repository queries in the source reduce to the
  corresponding boolean conditions on that single row).
* SQLAlchemy sessions (`sessionmaker(autocommit=False)`, `db.close()` in the
  request/loop `finally`) mean flushed-but-uncommitted changes are rolled
  back when the operation ends; an operation's result therefore keeps the
  pre-state whenever the source path ends without `db.commit()`.
* `SMSService.send_sms` returns `True`/`False` (it catches Twilio errors);
  each core operation performs at most one gateway send per contact, modelled
  by a `gwOk : Bool` argument.  A successful send both delivers the SMS and
  flushes an outbound `SMSMessage` row; a failed send does neither.
  The gateway-assigned sid of an outbound row is abstracted as `none`
  (it is fresh and never collides with an inbound webhook sid).
* Python truthiness: `if not contact.last_retry_at` is `lastRetryAt = none`,
  `(contact.retry_count or 0)` is the `Nat` field itself.
-/

/-- Mirror of `ConversationState` in `database/enhanced_models.py`. -/
inductive ConversationState where
  | INITIAL
  | AWAITING_CONTACT_CONFIRMATION
  | AWAITING_OUTCOME
  | AWAITING_PROJECT_TYPE
  | AWAITING_PROPERTY_TYPE
  | AWAITING_RESIDENTIAL_SUBTYPE
  | AWAITING_INSURANCE
  | AWAITING_INSURANCE_COMPANY
  | AWAITING_APPOINTMENT_DATETIME
  | AWAITING_APPOINTMENT_CONFLICT_CONFIRMATION
  | AWAITING_REFERRAL_SOURCE
  | COMPLETED
deriving DecidableEq

/-- Mirror of `ContactStatus` in `database/enhanced_models.py`. -/
inductive ContactStatus where
  | NEW
  | FOLLOW_UP_SCHEDULED
  | FOLLOW_UP_SENT
  | AWAITING_RESPONSE
  | CONTACT_MADE
  | NO_CONTACT
  | COMPLETED
deriving DecidableEq

/-- Mirror of `ContactOutcome` in `database/enhanced_models.py`. -/
inductive ContactOutcome where
  | APPOINTMENT_SET
  | LOOKING_FOR_QUOTES
  | WASTE_OF_TIME
  | SOMETHING_ELSE
  | PENDING
deriving DecidableEq

/-- Conversation-relevant columns of the `Contact` model
(`database/enhanced_models.py`, class `Contact`). -/
structure Contact where
  fullName : String
  status : ContactStatus
  outcome : ContactOutcome
  contactMadeAt : Option Nat
  outcomeReceivedAt : Option Nat
  completedAt : Option Nat
  projectCreationNeeded : Bool
  projectType : Option String
  propertyType : Option String
  residentialSubtype : Option String
  hasInsurance : Option Bool
  insuranceCompany : Option String
  referralSource : Option String
  retryCount : Nat
  lastRetryAt : Option Nat
  persistenceMode : Bool
  persistenceCount : Nat
  lastPersistenceAt : Option Nat
deriving DecidableEq

/-- Columns of the `SMSConversation` model
(`database/enhanced_models.py`, class `SMSConversation`). -/
structure Conversation where
  state : ConversationState
  technicianPhone : String
  contactConfirmed : Bool
  outcome : Option ContactOutcome
  outcomeDetails : Option String
  startedAt : Nat
  lastMessageAt : Nat
  completedAt : Option Nat
deriving DecidableEq

/-- Message direction (`SMSMessage.direction`). -/
inductive Direction where
  | inbound
  | outbound
deriving DecidableEq

/-- Columns of the `SMSMessage` model relevant to the claims; `twilio_sid`
carries the DB-level `unique=True` constraint. -/
structure Message where
  direction : Direction
  fromNumber : String
  toNumber : String
  messageBody : String
  twilioSid : Option String
  sentAt : Nat
deriving DecidableEq

/-- One SMS handed to the gateway (`SMSService.send_sms` argument pair). -/
structure Sms where
  toNum : String
  body : String
deriving DecidableEq

/-- Committed per-contact persistent state: the contact row, its single
conversation row, and the committed `sms_messages` rows. -/
structure PState where
  contact : Contact
  conv : Conversation
  rows : List Message
deriving DecidableEq

/-! ### Python string primitives -/

/-- Whether `p` occurs as a prefix of `s` (character lists). -/
def startsWithL : List Char → List Char → Bool
  | [], _ => true
  | _ :: _, [] => false
  | p :: ps, c :: cs => p == c && startsWithL ps cs

/-- Whether `p` occurs as a contiguous substring of `s` (character lists). -/
def hasSubL (p : List Char) : List Char → Bool
  | [] => startsWithL p []
  | c :: cs => startsWithL p (c :: cs) || hasSubL p cs

/-- Python's `pat in s` substring test on strings. -/
def pyIn (pat s : String) : Bool := hasSubL pat.toList s.toList

/-- Python's `str.lower()` (ASCII case folding, which covers every string
the source compares). -/
def pyLower (s : String) : String := ⟨s.toList.map Char.toLower⟩

/-- Python's `str.strip()`: drop leading and trailing whitespace. -/
def pyStrip (s : String) : String :=
  ⟨((s.toList.dropWhile Char.isWhitespace).reverse.dropWhile Char.isWhitespace).reverse⟩

/-- `message_body.lower().strip()` (`_handle_contact_confirmation`,
`_handle_outcome_response`). -/
def lowerStrip (s : String) : String := pyStrip (pyLower s)

/-- `message_body.strip().lower()` (the detail-collection handlers). -/
def stripLower (s : String) : String := pyLower (pyStrip s)

/-! ### Intent classification (`services/conversation_handler.py`) -/

/-- Source of `_is_yes_response`: `yes_patterns`. -/
def yesPatterns : List String := ["yes", "y", "yeah", "yep", "yup", "sure", "correct", "affirmative"]

/-- Source of `_is_no_response`: `no_patterns`. -/
def noPatterns : List String := ["no", "n", "nope", "nah", "not yet", "negative"]

/-- `_is_yes_response`: any YES pattern occurs as a substring. -/
def isYesResponse (response : String) : Bool :=
  yesPatterns.any (fun pat => pyIn pat response)

/-- `_is_no_response`: any NO pattern occurs as a substring. -/
def isNoResponse (response : String) : Bool :=
  noPatterns.any (fun pat => pyIn pat response)

/-- `_parse_outcome`: ordered substring checks returning the outcome enum. -/
def parseOutcome (response : String) : Option ContactOutcome :=
  if ["1", "appointment", "appt", "set", "scheduled"].any (fun w => pyIn w response) then
    some ContactOutcome.APPOINTMENT_SET
  else if ["2", "quote", "quotes", "estimate", "pricing"].any (fun w => pyIn w response) then
    some ContactOutcome.LOOKING_FOR_QUOTES
  else if ["3", "waste", "no interest", "not interested"].any (fun w => pyIn w response) then
    some ContactOutcome.WASTE_OF_TIME
  else if ["4", "else", "other", "different"].any (fun w => pyIn w response) then
    some ContactOutcome.SOMETHING_ELSE
  else
    none

/-- `_handle_project_type`: the `project_type_map` dict (exact digit keys). -/
def projectTypeMap (r : String) : Option String :=
  if r = "1" then some "Emergency Mitigation Services"
  else if r = "2" then some "Mold"
  else if r = "3" then some "Reconstruction"
  else if r = "4" then some "Sewage"
  else if r = "5" then some "Biohazard"
  else if r = "6" then some "Contents"
  else if r = "7" then some "Vandalism"
  else none

/-- `_handle_project_type`: the keyword guard list. -/
def projectKeywords : List String :=
  ["emergency", "mitigation", "ems", "mold", "reconstruction", "sewage", "biohazard", "contents", "vandalism"]

/-- Guard of `_handle_project_type`: digit key in the map or any keyword present. -/
def projectTypeRecognized (r : String) : Bool :=
  (projectTypeMap r).isSome || projectKeywords.any (fun k => pyIn k r)

/-- Value chosen by `_handle_project_type` when its guard passes
(map lookup first, then the elif keyword chain, defaulting to EMS). -/
def projectTypeValue (r : String) : String :=
  match projectTypeMap r with
  | some t => t
  | none =>
    if pyIn "emergency" r || pyIn "mitigation" r || pyIn "ems" r then "Emergency Mitigation Services"
    else if pyIn "mold" r then "Mold"
    else if pyIn "reconstruction" r || pyIn "recon" r then "Reconstruction"
    else if pyIn "sewage" r then "Sewage"
    else if pyIn "biohazard" r || pyIn "bio" r then "Biohazard"
    else if pyIn "contents" r || pyIn "content" r then "Contents"
    else if pyIn "vandalism" r then "Vandalism"
    else "Emergency Mitigation Services"

/-- `_handle_property_type`: elif chain mapping the reply to a property type. -/
def propertyTypeParse (r : String) : Option String :=
  if r = "1" || pyIn "residential" r || pyIn "home" r || pyIn "house" r then some "Residential"
  else if r = "2" || pyIn "commercial" r || pyIn "business" r then some "Commercial"
  else none

/-- `_handle_residential_subtype`: elif chain mapping the reply to a subtype. -/
def subtypeParse (r : String) : Option String :=
  if r = "1" || pyIn "single" r || pyIn "single family" r then some "Single Family Home"
  else if r = "2" || pyIn "multi" r || pyIn "multi-family" r then some "Multi-Family Home"
  else if r = "3" || pyIn "manufactured" r || pyIn "mobile" r || pyIn "trailer" r then some "Manufactured Home"
  else none

/-- `_handle_referral_source`: the `referral_map` dict (exact digit keys). -/
def referralMap (r : String) : Option String :=
  if r = "1" then some "Customer Referral"
  else if r = "2" then some "Industry Partner"
  else if r = "3" then some "Insurance Referral"
  else if r = "4" then some "Lead Gen"
  else if r = "5" then some "Online Marketing"
  else if r = "6" then some "Plumber"
  else none

/-- `_handle_referral_source`: the keyword guard list. -/
def referralKeywords : List String :=
  ["lead", "customer", "insurance", "online", "industry", "plumber"]

/-- Guard of `_handle_referral_source`. -/
def referralRecognized (r : String) : Bool :=
  (referralMap r).isSome || referralKeywords.any (fun k => pyIn k r)

/-- Value chosen by `_handle_referral_source` when its guard passes. -/
def referralValue (r : String) : String :=
  match referralMap r with
  | some t => t
  | none =>
    if pyIn "customer" r || pyIn "referral" r then "Customer Referral"
    else if pyIn "industry" r || pyIn "partner" r then "Industry Partner"
    else if pyIn "insurance" r then "Insurance Referral"
    else if pyIn "lead" r then "Lead Gen"
    else if pyIn "online" r || pyIn "marketing" r then "Online Marketing"
    else if pyIn "plumber" r then "Plumber"
    else "Customer Referral"

/-! ### Outbound message texts (verbatim from the source) -/

/-- Initial follow-up prompt (`contact_monitor.py`, `_send_follow_up_sms`). -/
def followUpPrompt (name : String) : String :=
  "Hi Rudy, were you able to make contact with " ++ name ++ " yet? Reply YES or NO."

/-- Outcome question sent after a YES (`_handle_contact_confirmation`). -/
def outcomePrompt (name : String) : String :=
  "Great! What was the outcome with " ++ name ++ "?\n\n" ++
  "Reply with:\n1 - Appointment set\n2 - Looking for quotes\n3 - Waste of time\n4 - Something else"

/-- Acknowledgment of a NO with the 2-hour notice (`_handle_contact_confirmation`). -/
def retryAck (name : String) : String :=
  "Got it. I'll check back with you in 2 hours about " ++ name ++ "."

/-- Clarification re-prompt for an invalid YES/NO reply (`_handle_contact_confirmation`). -/
def confirmRePrompt (name : String) : String :=
  "Please reply YES or NO. Were you able to make contact with " ++ name ++ "?"

/-- Project-type question (`_handle_outcome_response`, appointment branch). -/
def projectTypePrompt (name : String) : String :=
  "Great! I need a few details to create the project for " ++ name ++ ".\n\n" ++
  "What type of project?\n1 - Emergency Mitigation Services\n2 - Mold\n3 - Reconstruction\n4 - Sewage\n5 - Biohazard\n6 - Contents\n7 - Vandalism"

/-- Acknowledgment for non-appointment outcomes (`_handle_outcome_response`). -/
def outcomeAck (name : String) : String :=
  "Got it, thanks for the update on " ++ name ++ "!"

/-- Clarification re-prompt for an invalid outcome reply (`_handle_outcome_response`). -/
def outcomeRePrompt : String :=
  "Please reply with:\n1 - Appointment set\n2 - Looking for quotes\n3 - Waste of time\n4 - Something else"

/-- Property-type question (`_handle_project_type`). -/
def propertyTypePrompt : String :=
  "What type of property?\n1 - Residential\n2 - Commercial"

/-- Clarification re-prompt for an invalid project-type reply (`_handle_project_type`). -/
def projectTypeRePrompt : String :=
  "Please reply with:\n1 - Emergency Mitigation Services\n2 - Mold\n3 - Reconstruction\n4 - Sewage\n5 - Biohazard\n6 - Contents\n7 - Vandalism"

/-- Residential-subtype question (`_handle_property_type`). -/
def subtypePrompt : String :=
  "What type of residential property?\n1 - Single Family Home\n2 - Multi-Family Home\n3 - Manufactured Home"

/-- Insurance question (`_handle_property_type` / `_handle_residential_subtype`). -/
def insurancePrompt : String :=
  "Do they have insurance? Reply YES or NO"

/-- Clarification re-prompt for an invalid property-type reply (`_handle_property_type`). -/
def propertyTypeRePrompt : String :=
  "Please reply with:\n1 - Residential\n2 - Commercial"

/-- Clarification re-prompt for an invalid subtype reply (`_handle_residential_subtype`). -/
def subtypeRePrompt : String :=
  "Please reply with:\n1 - Single Family Home\n2 - Multi-Family Home\n3 - Manufactured Home"

/-- Insurance-company question (`_handle_insurance`). -/
def insuranceCompanyPrompt : String :=
  "What insurance company?"

/-- Referral-source question (`_handle_insurance` / `_handle_insurance_company`). -/
def referralPrompt : String :=
  "How did they hear about us?\n1 - Customer Referral\n2 - Industry Partner\n3 - Insurance Referral\n4 - Lead Gen\n5 - Online Marketing\n6 - Plumber"

/-- Clarification re-prompt for an invalid insurance reply (`_handle_insurance`). -/
def insuranceRePrompt : String :=
  "Please reply YES or NO. Do they have insurance?"

/-- Clarification re-prompt for an invalid referral reply (`_handle_referral_source`). -/
def referralRePrompt : String :=
  "Please reply with:\n1 - Customer Referral\n2 - Industry Partner\n3 - Insurance Referral\n4 - Lead Gen\n5 - Online Marketing\n6 - Plumber"

/-- Python f-string rendering of a possibly-missing value. -/
def optStr (o : Option String) : String := o.getD "None"

/-- Final summary message (`_handle_referral_source`, completion branch). -/
def summaryMsg (c : Contact) : String :=
  "Perfect! I have all the details for " ++ c.fullName ++ ":\n" ++
  "• Project: " ++ optStr c.projectType ++ "\n" ++
  "• Property: " ++ optStr c.propertyType ++ "\n" ++
  "• Insurance: " ++ (if c.hasInsurance = some true then "Yes - " ++ optStr c.insuranceCompany else "No") ++ "\n" ++
  "• Source: " ++ optStr c.referralSource ++ "\n\n" ++
  "I'll create the project in Albiware now. You'll get a confirmation once it's done!"

/-- Stray-message notice (`handle_incoming_sms`, no active conversation). -/
def helpMsg : String :=
  "No active conversation found. Please wait for a follow-up question."

/-- 2-hour retry prompt (`retry_persistence_scheduler.py`, `_process_two_hour_retries`). -/
def retryPrompt (name : String) : String :=
  "Hi Rudy, checking in again - were you able to make contact with " ++ name ++ "? Reply YES or NO."

/-- First persistence message (`_process_persistence_mode`; the source writes
literal backslash-n sequences inside this f-string, reproduced here). -/
def persistenceFirstMsg (name : String) : String :=
  "⚠️ PERSISTENCE MODE ACTIVATED ⚠️\\n\\n" ++
  "Hi Rudy, I still need to know: were you able to make contact with " ++ name ++ "? " ++
  "Reply YES or NO.\\n\\n" ++
  "(You'll receive this message every 10 minutes until you respond)"

/-- Subsequent persistence reminder (`_process_persistence_mode`). -/
def persistenceReminderMsg (count : Nat) (name : String) : String :=
  "Reminder #" ++ toString (count + 1) ++ ": Were you able to make contact with " ++ name ++ "? " ++
  "Reply YES or NO."

/-- Scheduler fallback for a missing contact name:
`contact.full_name or "the contact"`. -/
def nameOr (s d : String) : String := if s = "" then d else s

/-! ### State handlers (`services/conversation_handler.py`)

Each handler returns the Python return value, the mutated (session) contact
and conversation, and the list of successfully delivered gateway sends.
Whether the mutations are committed is decided by the wrapper below: the
source calls `db.commit()` exactly on the paths that return `True`. -/

/-- Result of one state handler. -/
structure HRes where
  ret : Bool
  contact : Contact
  conv : Conversation
  sends : List Sms
deriving DecidableEq

/-- Mirror of `_handle_contact_confirmation`. -/
def handleContactConfirmation (now : Nat) (gwOk : Bool) (c : Contact) (v : Conversation)
    (body : String) : HRes :=
  if isYesResponse (lowerStrip body) then
    { ret := true
      contact := { c with status := ContactStatus.CONTACT_MADE, contactMadeAt := some now,
                          persistenceMode := false }
      conv := { v with contactConfirmed := true, state := ConversationState.AWAITING_OUTCOME,
                       lastMessageAt := now }
      sends := if gwOk then [⟨v.technicianPhone, outcomePrompt c.fullName⟩] else [] }
  else if isNoResponse (lowerStrip body) then
    { ret := true
      contact := { c with retryCount := c.retryCount + 1, lastRetryAt := some now }
      conv := { v with contactConfirmed := false, lastMessageAt := now }
      sends := if gwOk then [⟨v.technicianPhone, retryAck c.fullName⟩] else [] }
  else
    { ret := false, contact := c, conv := v
      sends := if gwOk then [⟨v.technicianPhone, confirmRePrompt c.fullName⟩] else [] }

/-- Mirror of `_handle_outcome_response`. -/
def handleOutcomeResponse (now : Nat) (gwOk : Bool) (c : Contact) (v : Conversation)
    (body : String) : HRes :=
  match parseOutcome (lowerStrip body) with
  | some o =>
    if o = ContactOutcome.APPOINTMENT_SET then
      { ret := true
        contact := { c with outcome := o, outcomeReceivedAt := some now,
                            projectCreationNeeded := true,
                            status := ContactStatus.AWAITING_RESPONSE }
        conv := { v with outcome := some o, outcomeDetails := some body,
                         state := ConversationState.AWAITING_PROJECT_TYPE,
                         completedAt := none, lastMessageAt := now }
        sends := if gwOk then [⟨v.technicianPhone, projectTypePrompt c.fullName⟩] else [] }
    else
      { ret := true
        contact := { c with outcome := o, outcomeReceivedAt := some now,
                            status := ContactStatus.COMPLETED, completedAt := some now }
        conv := { v with outcome := some o, outcomeDetails := some body,
                         state := ConversationState.COMPLETED, completedAt := some now,
                         lastMessageAt := now }
        sends := if gwOk then [⟨v.technicianPhone, outcomeAck c.fullName⟩] else [] }
  | none =>
    { ret := false, contact := c, conv := v
      sends := if gwOk then [⟨v.technicianPhone, outcomeRePrompt⟩] else [] }

/-- Mirror of `_handle_project_type`. -/
def handleProjectType (now : Nat) (gwOk : Bool) (c : Contact) (v : Conversation)
    (body : String) : HRes :=
  if projectTypeRecognized (stripLower body) then
    { ret := true
      contact := { c with projectType := some (projectTypeValue (stripLower body)) }
      conv := { v with state := ConversationState.AWAITING_PROPERTY_TYPE, lastMessageAt := now }
      sends := if gwOk then [⟨v.technicianPhone, propertyTypePrompt⟩] else [] }
  else
    { ret := false, contact := c, conv := v
      sends := if gwOk then [⟨v.technicianPhone, projectTypeRePrompt⟩] else [] }

/-- Mirror of `_handle_property_type`. -/
def handlePropertyType (now : Nat) (gwOk : Bool) (c : Contact) (v : Conversation)
    (body : String) : HRes :=
  match propertyTypeParse (stripLower body) with
  | some pt =>
    if pt = "Residential" then
      { ret := true
        contact := { c with propertyType := some pt }
        conv := { v with state := ConversationState.AWAITING_RESIDENTIAL_SUBTYPE, lastMessageAt := now }
        sends := if gwOk then [⟨v.technicianPhone, subtypePrompt⟩] else [] }
    else
      { ret := true
        contact := { c with propertyType := some pt }
        conv := { v with state := ConversationState.AWAITING_INSURANCE, lastMessageAt := now }
        sends := if gwOk then [⟨v.technicianPhone, insurancePrompt⟩] else [] }
  | none =>
    { ret := false, contact := c, conv := v
      sends := if gwOk then [⟨v.technicianPhone, propertyTypeRePrompt⟩] else [] }

/-- Mirror of `_handle_residential_subtype`. -/
def handleResidentialSubtype (now : Nat) (gwOk : Bool) (c : Contact) (v : Conversation)
    (body : String) : HRes :=
  match subtypeParse (stripLower body) with
  | some st =>
    { ret := true
      contact := { c with residentialSubtype := some st }
      conv := { v with state := ConversationState.AWAITING_INSURANCE, lastMessageAt := now }
      sends := if gwOk then [⟨v.technicianPhone, insurancePrompt⟩] else [] }
  | none =>
    { ret := false, contact := c, conv := v
      sends := if gwOk then [⟨v.technicianPhone, subtypeRePrompt⟩] else [] }

/-- Mirror of `_handle_insurance`. -/
def handleInsurance (now : Nat) (gwOk : Bool) (c : Contact) (v : Conversation)
    (body : String) : HRes :=
  if isYesResponse (stripLower body) then
    { ret := true
      contact := { c with hasInsurance := some true }
      conv := { v with state := ConversationState.AWAITING_INSURANCE_COMPANY, lastMessageAt := now }
      sends := if gwOk then [⟨v.technicianPhone, insuranceCompanyPrompt⟩] else [] }
  else if isNoResponse (stripLower body) then
    { ret := true
      contact := { c with hasInsurance := some false }
      conv := { v with state := ConversationState.AWAITING_REFERRAL_SOURCE, lastMessageAt := now }
      sends := if gwOk then [⟨v.technicianPhone, referralPrompt⟩] else [] }
  else
    { ret := false, contact := c, conv := v
      sends := if gwOk then [⟨v.technicianPhone, insuranceRePrompt⟩] else [] }

/-- Mirror of `_handle_insurance_company` (no guard: every reply is accepted). -/
def handleInsuranceCompany (now : Nat) (gwOk : Bool) (c : Contact) (v : Conversation)
    (body : String) : HRes :=
  { ret := true
    contact := { c with insuranceCompany := some (pyStrip body) }
    conv := { v with state := ConversationState.AWAITING_REFERRAL_SOURCE, lastMessageAt := now }
    sends := if gwOk then [⟨v.technicianPhone, referralPrompt⟩] else [] }

/-- Mirror of `_handle_referral_source`. -/
def handleReferralSource (now : Nat) (gwOk : Bool) (c : Contact) (v : Conversation)
    (body : String) : HRes :=
  if referralRecognized (stripLower body) then
    { ret := true
      contact := { c with referralSource := some (referralValue (stripLower body)),
                          status := ContactStatus.COMPLETED, completedAt := some now }
      conv := { v with state := ConversationState.COMPLETED, completedAt := some now,
                       lastMessageAt := now }
      sends := if gwOk then
          [⟨v.technicianPhone,
            summaryMsg { c with referralSource := some (referralValue (stripLower body)) }⟩]
        else [] }
  else
    { ret := false, contact := c, conv := v
      sends := if gwOk then [⟨v.technicianPhone, referralRePrompt⟩] else [] }

/-! ### Inbound entry point (`handle_incoming_sms`) -/

/-- Result of one core operation: the Python return value, the committed
persistent state after the request session closes, and the gateway sends
actually delivered during the operation. -/
structure OpRes where
  ret : Bool
  state : PState
  sends : List Sms
deriving DecidableEq

/-- Dispatch table of `handle_incoming_sms` (lines 65-91): the handler bound
to the conversation's state, or `none` for states without a handler (the
source logs a warning and returns `False`). -/
def dispatchState (now : Nat) (gwOk : Bool) (c : Contact) (v : Conversation)
    (body : String) : Option HRes :=
  match v.state with
  | ConversationState.AWAITING_CONTACT_CONFIRMATION => some (handleContactConfirmation now gwOk c v body)
  | ConversationState.AWAITING_OUTCOME => some (handleOutcomeResponse now gwOk c v body)
  | ConversationState.AWAITING_PROJECT_TYPE => some (handleProjectType now gwOk c v body)
  | ConversationState.AWAITING_PROPERTY_TYPE => some (handlePropertyType now gwOk c v body)
  | ConversationState.AWAITING_RESIDENTIAL_SUBTYPE => some (handleResidentialSubtype now gwOk c v body)
  | ConversationState.AWAITING_INSURANCE => some (handleInsurance now gwOk c v body)
  | ConversationState.AWAITING_INSURANCE_COMPANY => some (handleInsuranceCompany now gwOk c v body)
  | ConversationState.AWAITING_REFERRAL_SOURCE => some (handleReferralSource now gwOk c v body)
  | _ => none

/-- The inbound `SMSMessage` row flushed by `_log_incoming_message`. -/
def inboundRow (now : Nat) (fromNumber toNumber body sid : String) : Message :=
  { direction := Direction.inbound, fromNumber := fromNumber, toNumber := toNumber,
    messageBody := body, twilioSid := some sid, sentAt := now }

/-- The outbound `SMSMessage` row flushed by `SMSService.send_sms` on a
successful send (gateway sid abstracted as `none`). -/
def outboundRow (now : Nat) (twilioPhone : String) (m : Sms) : Message :=
  { direction := Direction.outbound, fromNumber := twilioPhone, toNumber := m.toNum,
    messageBody := m.body, twilioSid := none, sentAt := now }

/-- Mirror of `ConversationHandler.handle_incoming_sms`.

`twilioPhone` is the service's own number (`sms_service.twilio_phone`).
Steps, as in the source: look up the single non-`COMPLETED` conversation for
`fromNumber`; flush the inbound row (the `unique` constraint on `twilio_sid`
raises `IntegrityError` on a duplicate sid, which the surrounding
`try/except` turns into `return False` with nothing committed); dispatch on
the state.  Handler paths returning `True` end in `db.commit()`, persisting
the inbound row, the handler's mutations and any outbound row; paths
returning `False` never commit, so the session rollback discards the flushed
rows and mutations. -/
def handleIncomingSms (now : Nat) (gwOk : Bool) (twilioPhone : String) (s : PState)
    (fromNumber body sid : String) : OpRes :=
  if s.conv.technicianPhone = fromNumber ∧ s.conv.state ≠ ConversationState.COMPLETED then
    if (s.rows.filter (fun m => m.twilioSid = some sid)).length ≠ 0 then
      { ret := false, state := s, sends := [] }
    else
      match dispatchState now gwOk s.contact s.conv body with
      | some h =>
        if h.ret then
          { ret := true
            state := { contact := h.contact, conv := h.conv,
                       rows := s.rows ++ [inboundRow now fromNumber twilioPhone body sid] ++
                               h.sends.map (outboundRow now twilioPhone) }
            sends := h.sends }
        else
          { ret := false, state := s, sends := h.sends }
      | none => { ret := false, state := s, sends := [] }
  else
    { ret := false, state := s,
      sends := if gwOk then [⟨fromNumber, helpMsg⟩] else [] }

/-! ### Follow-up creation (`contact_monitor.py`, `_send_follow_up_sms`) -/

/-- Mirror of `_send_follow_up_sms` plus its caller's status update: creates
the conversation in `AWAITING_CONTACT_CONFIRMATION`, sends the initial
prompt, and on success sets the contact status (the caller then overwrites
it with `FOLLOW_UP_SENT`) and the conversation's `last_message_at`; the
caller commits unconditionally (line 159). -/
def sendFollowUpSms (now : Nat) (gwOk : Bool) (twilioPhone technicianPhone : String)
    (c : Contact) : OpRes :=
  let v : Conversation :=
    { state := ConversationState.AWAITING_CONTACT_CONFIRMATION,
      technicianPhone := technicianPhone, contactConfirmed := false,
      outcome := none, outcomeDetails := none,
      startedAt := now, lastMessageAt := now, completedAt := none }
  let m : Sms := ⟨technicianPhone, followUpPrompt (nameOr c.fullName "the new contact")⟩
  if gwOk then
    { ret := true
      state := { contact := { c with status := ContactStatus.FOLLOW_UP_SENT },
                 conv := { v with lastMessageAt := now },
                 rows := [outboundRow now twilioPhone m] }
      sends := [m] }
  else
    { ret := false
      state := { contact := c, conv := v, rows := [] }
      sends := [] }

/-! ### Retry / persistence scheduler (`retry_persistence_scheduler.py`) -/

/-- Eligibility filter of `_process_two_hour_retries` (the SQL query):
`last_retry_at` set and at least 2 hours old, conversation still in
`AWAITING_CONTACT_CONFIRMATION` with `completed_at` null. -/
def retryEligible (now : Nat) (s : PState) : Bool :=
  (match s.contact.lastRetryAt with
   | some t => decide (t + 7200 ≤ now)
   | none => false) &&
  decide (s.conv.state = ConversationState.AWAITING_CONTACT_CONFIRMATION) &&
  decide (s.conv.completedAt = none)

/-- Mirror of `_process_two_hour_retries` on the single-contact store.
Returns `(retries_sent, committed state, delivered sends)`.  On a successful
send, `last_retry_at` is bumped and committed; on a failed send nothing was
mutated and nothing is committed. -/
def processTwoHourRetries (now : Nat) (gwOk : Bool) (s : PState) :
    Nat × PState × List Sms :=
  if retryEligible now s then
    let m : Sms := ⟨s.conv.technicianPhone, retryPrompt (nameOr s.contact.fullName "the contact")⟩
    if gwOk then
      (1,
       { s with contact := { s.contact with lastRetryAt := some now },
                rows := s.rows ++ [outboundRow now s.conv.technicianPhone m] },
       [m])
    else
      (0, s, [])
  else
    (0, s, [])

/-- Eligibility filter of `_process_persistence_mode` (the SQL query):
conversation in `AWAITING_CONTACT_CONFIRMATION`, `last_message_at` at least
10 minutes old, `completed_at` null. -/
def persistenceEligible (now : Nat) (s : PState) : Bool :=
  decide (s.conv.state = ConversationState.AWAITING_CONTACT_CONFIRMATION) &&
  decide (s.conv.lastMessageAt + 600 ≤ now) &&
  decide (s.conv.completedAt = none)

/-- Message body chosen by `_process_persistence_mode` from the current
`persistence_count`. -/
def persistenceBody (c : Contact) : String :=
  if c.persistenceCount = 0 then persistenceFirstMsg (nameOr c.fullName "the contact")
  else persistenceReminderMsg c.persistenceCount (nameOr c.fullName "the contact")

/-- Mirror of `_process_persistence_mode` on the single-contact store.
The source sends when the contact is already in persistence mode, or enters
persistence mode (a session mutation) when `last_retry_at` is unset; a
contact with `last_retry_at` set and persistence mode off is skipped.  On a
successful send all session mutations (including the mode flip) are
committed with the bumped counters; on a failed send nothing is committed,
so the closing session discards the mode flip. -/
def processPersistenceMode (now : Nat) (gwOk : Bool) (s : PState) :
    Nat × PState × List Sms :=
  if persistenceEligible now s then
    if s.contact.persistenceMode || (s.contact.lastRetryAt = none : Bool) then
      let c' : Contact := { s.contact with persistenceMode := true }
      let m : Sms := ⟨s.conv.technicianPhone, persistenceBody c'⟩
      if gwOk then
        (1,
         { contact := { c' with persistenceCount := c'.persistenceCount + 1,
                                lastPersistenceAt := some now },
           conv := { s.conv with lastMessageAt := now },
           rows := s.rows ++ [outboundRow now s.conv.technicianPhone m] },
         [m])
      else
        (0, s, [])
    else
      (0, s, [])
  else
    (0, s, [])

/-- Result of one full scheduler tick (`process_retries_and_persistence`):
the returned counts dict, the committed state, and the delivered sends of
each phase separately. -/
structure TickRes where
  retriesSent : Nat
  persistenceSent : Nat
  state : PState
  retrySends : List Sms
  persistenceSends : List Sms
deriving DecidableEq

/-- Mirror of `process_retries_and_persistence`: the 2-hour retry pass runs
first, then the persistence pass on the resulting state. -/
def processRetriesAndPersistence (now : Nat) (gwOkRetry gwOkPersist : Bool)
    (s : PState) : TickRes :=
  let r := processTwoHourRetries now gwOkRetry s
  let p := processPersistenceMode now gwOkPersist r.2.1
  { retriesSent := r.1, persistenceSent := p.1, state := p.2.1,
    retrySends := r.2.2, persistenceSends := p.2.2 }

/-! ### Concrete fixtures for witnesses and counterexamples -/

/-- A contact as first created by the Albiware sync (tracking columns at
their model defaults). -/
def cNew : Contact :=
  { fullName := "Bob", status := ContactStatus.NEW, outcome := ContactOutcome.PENDING,
    contactMadeAt := none, outcomeReceivedAt := none, completedAt := none,
    projectCreationNeeded := false, projectType := none, propertyType := none,
    residentialSubtype := none, hasInsurance := none, insuranceCompany := none,
    referralSource := none, retryCount := 0, lastRetryAt := none,
    persistenceMode := false, persistenceCount := 0, lastPersistenceAt := none }

/-- `cNew` once its follow-up prompt is out and a reply is awaited. -/
def cBob : Contact := { cNew with status := ContactStatus.AWAITING_RESPONSE }

/-- `cBob` after the scheduler has escalated it into persistence mode. -/
def cBobPers : Contact :=
  { cBob with persistenceMode := true, persistenceCount := 1, lastPersistenceAt := some 600 }

/-- A conversation awaiting the YES/NO contact confirmation. -/
def vAwait : Conversation :=
  { state := ConversationState.AWAITING_CONTACT_CONFIRMATION,
    technicianPhone := "+15550001111", contactConfirmed := false,
    outcome := none, outcomeDetails := none,
    startedAt := 0, lastMessageAt := 0, completedAt := none }

/-- The committed store right after `_send_follow_up_sms` succeeded. -/
def pFresh : PState := (sendFollowUpSms 0 true "+1999" "+15550001111" cNew).state

/-! ### Claim C5 -/

/-- C5: in `AWAITING_CONTACT_CONFIRMATION`, an inbound message matching a YES
keyword sets `contact_confirmed=true`, sets the contact status to
`CONTACT_MADE`, clears persistence mode, and moves the conversation to
`AWAITING_OUTCOME`. -/
theorem C5_yes_confirms_contact (now : Nat) (gwOk : Bool) (c : Contact)
    (v : Conversation) (body : String)
    (hy : isYesResponse (lowerStrip body) = true) :
    (handleContactConfirmation now gwOk c v body).conv.contactConfirmed = true ∧
    (handleContactConfirmation now gwOk c v body).contact.status = ContactStatus.CONTACT_MADE ∧
    (handleContactConfirmation now gwOk c v body).contact.persistenceMode = false ∧
    (handleContactConfirmation now gwOk c v body).conv.state = ConversationState.AWAITING_OUTCOME := by
  simp [handleContactConfirmation, hy]

/-- Witness for C5 at the reply "YES" from a contact that was in persistence
mode. -/
theorem C5_yes_confirms_contact_witness :
    isYesResponse (lowerStrip "YES") = true ∧
    ((handleContactConfirmation 5 true cBobPers vAwait "YES").conv.contactConfirmed = true ∧
     (handleContactConfirmation 5 true cBobPers vAwait "YES").contact.status = ContactStatus.CONTACT_MADE ∧
     (handleContactConfirmation 5 true cBobPers vAwait "YES").contact.persistenceMode = false ∧
     (handleContactConfirmation 5 true cBobPers vAwait "YES").conv.state = ConversationState.AWAITING_OUTCOME) :=
  ⟨by decide, C5_yes_confirms_contact 5 true cBobPers vAwait "YES" (by decide)⟩

/-! ### Claim C2 -/

/-- Counterexample to C2: a NO reply from a contact whose `persistence_mode`
is set is processed successfully but leaves `persistence_mode` true, and the
next persistence pass 10 minutes later still sends a persistence message. -/
theorem C2_counterexample :
    (handleContactConfirmation 5 true cBobPers vAwait "no").ret = true ∧
    (handleContactConfirmation 5 true cBobPers vAwait "no").contact.persistenceMode = true ∧
    (processPersistenceMode 605 true
      { contact := (handleContactConfirmation 5 true cBobPers vAwait "no").contact,
        conv := (handleContactConfirmation 5 true cBobPers vAwait "no").conv,
        rows := [] }).1 = 1 := by decide

/-- C2 (amended): only a YES resets `persistence_mode`; a NO leaves it
unchanged (so a contact already in persistence mode keeps receiving
persistence messages after answering NO). -/
theorem C2_persistence_cleared_only_on_yes (now : Nat) (gwOk : Bool) (c : Contact)
    (v : Conversation) (body : String) :
    (isYesResponse (lowerStrip body) = true →
      (handleContactConfirmation now gwOk c v body).contact.persistenceMode = false) ∧
    (isYesResponse (lowerStrip body) = false → isNoResponse (lowerStrip body) = true →
      (handleContactConfirmation now gwOk c v body).contact.persistenceMode = c.persistenceMode) := by
  refine ⟨fun hy => ?_, fun hy hn => ?_⟩
  · simp [handleContactConfirmation, hy]
  · simp [handleContactConfirmation, hy, hn]

/-- Witness for C2 at the replies "yes" and "no" from a contact in
persistence mode. -/
theorem C2_persistence_cleared_only_on_yes_witness :
    ((handleContactConfirmation 5 true cBobPers vAwait "yes").contact.persistenceMode = false) ∧
    ((handleContactConfirmation 5 true cBobPers vAwait "no").contact.persistenceMode =
      cBobPers.persistenceMode) :=
  ⟨(C2_persistence_cleared_only_on_yes 5 true cBobPers vAwait "yes").1 (by decide),
   (C2_persistence_cleared_only_on_yes 5 true cBobPers vAwait "no").2 (by decide) (by decide)⟩

/-! ### Claim C9 -/

/-- A conversation awaiting the insurance company name. -/
def vInsCo : Conversation := { vAwait with state := ConversationState.AWAITING_INSURANCE_COMPANY }

/-- Counterexample to C9: a whitespace-only reply in
`AWAITING_INSURANCE_COMPANY` still advances the state and stores the empty
string as the insurance company. -/
theorem C9_counterexample :
    (handleInsuranceCompany 5 true cBob vInsCo "   ").conv.state =
      ConversationState.AWAITING_REFERRAL_SOURCE ∧
    (handleInsuranceCompany 5 true cBob vInsCo "   ").contact.insuranceCompany = some "" := by
  decide

/-- C9 (amended): `_handle_insurance_company` accepts every reply, empty or
not: it stores the stripped text as `insurance_company` and advances to
`AWAITING_REFERRAL_SOURCE` unconditionally. -/
theorem C9_insurance_company_accepts_any_text (now : Nat) (gwOk : Bool) (c : Contact)
    (v : Conversation) (body : String) :
    (handleInsuranceCompany now gwOk c v body).ret = true ∧
    (handleInsuranceCompany now gwOk c v body).contact.insuranceCompany = some (pyStrip body) ∧
    (handleInsuranceCompany now gwOk c v body).conv.state = ConversationState.AWAITING_REFERRAL_SOURCE := by
  simp [handleInsuranceCompany]

/-! ### Claim C10 -/

/-- A one-character pattern occurs as a substring iff the character occurs. -/
theorem hasSubL_singleton (a : Char) (l : List Char) (h : a ∈ l) :
    hasSubL [a] l = true := by
  induction l with
  | nil => cases h
  | cons c cs ih =>
    cases h with
    | head => simp [hasSubL, startsWithL]
    | tail _ hm => simp [hasSubL, startsWithL, ih hm]

/-- Any string containing the character `y` matches the YES pattern set. -/
theorem isYes_of_mem_y (s : String) (h : 'y' ∈ s.toList) : isYesResponse s = true := by
  have h1 : pyIn "y" s = true := hasSubL_singleton 'y' s.toList h
  unfold isYesResponse
  rw [List.any_eq_true]
  exact ⟨"y", by simp [yesPatterns], h1⟩

/-- Dropping a `p`-satisfying prefix keeps every element not satisfying `p`. -/
theorem mem_dropWhile_of_not (p : Char → Bool) (a : Char) (ha : p a = false) :
    ∀ l : List Char, a ∈ l → a ∈ l.dropWhile p := by
  intro l
  induction l with
  | nil => intro h; cases h
  | cons c cs ih =>
    intro h
    by_cases hc : p c = true
    · rw [List.dropWhile_cons, if_pos hc]
      cases h with
      | head => exact absurd hc (by simp [ha])
      | tail _ hm => exact ih hm
    · rw [List.dropWhile_cons, if_neg hc]
      exact h

/-- Stripping preserves every non-whitespace character. -/
theorem mem_pyStrip (a : Char) (s : String) (ha : a.isWhitespace = false)
    (h : a ∈ s.toList) : a ∈ (pyStrip s).toList := by
  unfold pyStrip
  refine List.mem_reverse.mpr ?_
  apply mem_dropWhile_of_not _ _ ha
  refine List.mem_reverse.mpr ?_
  exact mem_dropWhile_of_not _ _ ha _ h

/-- Lowercasing fixes whitespace characters. -/
theorem toLower_of_whitespace (c : Char) (h : c.isWhitespace = true) :
    c.toLower = c := by
  unfold Char.isWhitespace at h
  simp only [Bool.or_eq_true, decide_eq_true_eq] at h
  rcases h with ((h | h) | h) | h <;> rw [h] <;> decide

/-- A character that lowercases to `y` is not whitespace. -/
theorem notWhitespace_of_toLower_y (c : Char) (hc : c.toLower = 'y') :
    c.isWhitespace = false := by
  by_contra h
  have h' : c.isWhitespace = true := by simpa using h
  rw [toLower_of_whitespace c h'] at hc
  rw [hc] at h'
  exact absurd h' (by decide)

/-- A `y` in the lowercased text survives strip-then-lower normalization. -/
theorem mem_pyLower_pyStrip (s : String) (h : 'y' ∈ (pyLower s).toList) :
    'y' ∈ (pyLower (pyStrip s)).toList := by
  unfold pyLower at h ⊢
  obtain ⟨c, hc, hcy⟩ := List.mem_map.mp h
  exact List.mem_map.mpr
    ⟨c, mem_pyStrip c s (notWhitespace_of_toLower_y c hcy) hc, hcy⟩

/-- C10: any inbound message whose lowercased text contains the letter `y`
anywhere is classified YES (the substring pattern `y` matches and
`_is_yes_response` is checked before `_is_no_response`), both in
`AWAITING_CONTACT_CONFIRMATION` and in `AWAITING_INSURANCE`; in particular
the listed NO pattern "not yet" is classified YES. -/
theorem C10_y_substring_classified_yes (body : String)
    (h : 'y' ∈ (pyLower body).toList) :
    isYesResponse (lowerStrip body) = true ∧
    (∀ now gwOk c v, (handleContactConfirmation now gwOk c v body).conv.state =
        ConversationState.AWAITING_OUTCOME) ∧
    isYesResponse (stripLower body) = true ∧
    (∀ now gwOk c v, (handleInsurance now gwOk c v body).contact.hasInsurance = some true) ∧
    isYesResponse (lowerStrip "not yet") = true := by
  have h1 : isYesResponse (lowerStrip body) = true :=
    isYes_of_mem_y _ (mem_pyStrip 'y' (pyLower body) (by decide) h)
  have h2 : isYesResponse (stripLower body) = true :=
    isYes_of_mem_y _ (mem_pyLower_pyStrip body h)
  refine ⟨h1, fun now gwOk c v => ?_, h2, fun now gwOk c v => ?_, by decide⟩
  · simp [handleContactConfirmation, h1]
  · simp [handleInsurance, h2]

/-- Witness for C10 at the message "not yet". -/
theorem C10_y_substring_classified_yes_witness :
    ('y' ∈ (pyLower "not yet").toList) ∧
    isYesResponse (lowerStrip "not yet") = true ∧
    (handleContactConfirmation 5 true cBob vAwait "not yet").conv.state =
      ConversationState.AWAITING_OUTCOME :=
  ⟨by decide, (C10_y_substring_classified_yes "not yet" (by decide)).1,
   (C10_y_substring_classified_yes "not yet" (by decide)).2.1 5 true cBob vAwait⟩

/-! ### Claim C8 -/

/-- Counterexample to C8: an inbound YES whose outbound prompt fails at the
gateway still commits the full transition (the handler ignores the send
result and calls `db.commit()` unconditionally), so inbound handling does
advance state on a gateway failure. -/
theorem C8_counterexample :
    (handleIncomingSms 5 false "+1999" pFresh "+15550001111" "yes" "SID1").ret = true ∧
    (handleIncomingSms 5 false "+1999" pFresh "+15550001111" "yes" "SID1").state.conv.state =
      ConversationState.AWAITING_OUTCOME ∧
    (handleIncomingSms 5 false "+1999" pFresh "+15550001111" "yes" "SID1").state.conv.contactConfirmed = true ∧
    (handleIncomingSms 5 false "+1999" pFresh "+15550001111" "yes" "SID1").sends = [] := by
  decide

/-- C8 (amended): in the scheduler passes a failed gateway send advances no
counter or state and delivers nothing, so the unchanged precondition fields
make the next tick re-send; inbound handling, by contrast, commits its
transition even when the outbound send fails. -/
theorem C8_scheduler_send_failure_no_advance (now : Nat) (s : PState) :
    processTwoHourRetries now false s = (0, s, []) ∧
    processPersistenceMode now false s = (0, s, []) := by
  constructor
  · unfold processTwoHourRetries
    split <;> rfl
  · unfold processPersistenceMode
    split
    · split <;> rfl
    · rfl

/-! ### Claim C1 -/

/-- The persistence pass skips a contact whose `persistence_mode` is off and
whose `last_retry_at` is set. -/
theorem persistence_skip (now : Nat) (gwOk : Bool) (s : PState) (t : Nat)
    (hm : s.contact.persistenceMode = false) (hr : s.contact.lastRetryAt = some t) :
    processPersistenceMode now gwOk s = (0, s, []) := by
  unfold processPersistenceMode
  rw [hm, hr]
  simp

/-- The retry pass never touches `persistence_mode` and keeps
`last_retry_at` set (either unchanged or bumped to `now`). -/
theorem retry_preserves (now : Nat) (gwOk : Bool) (s : PState) :
    (processTwoHourRetries now gwOk s).2.1.contact.persistenceMode = s.contact.persistenceMode ∧
    ((processTwoHourRetries now gwOk s).2.1.contact.lastRetryAt = s.contact.lastRetryAt ∨
      (processTwoHourRetries now gwOk s).2.1.contact.lastRetryAt = some now) := by
  unfold processTwoHourRetries
  split
  · split
    · exact ⟨rfl, Or.inr rfl⟩
    · exact ⟨rfl, Or.inl rfl⟩
  · exact ⟨rfl, Or.inl rfl⟩

/-- C1 (amended): a contact with `last_retry_at` set whose
`persistence_mode` is off never receives a persistence message from a
scheduler tick: persistence mode is only ever entered when `last_retry_at`
is unset.  (Once `persistence_mode` is already true the tick keeps sending
regardless of `last_retry_at`; see the counterexample.) -/
theorem C1_no_persistence_when_retry_pending (now : Nat) (gwOkR gwOkP : Bool)
    (s : PState) (t : Nat)
    (hm : s.contact.persistenceMode = false) (hr : s.contact.lastRetryAt = some t) :
    (processRetriesAndPersistence now gwOkR gwOkP s).persistenceSent = 0 ∧
    (processRetriesAndPersistence now gwOkR gwOkP s).persistenceSends = [] := by
  obtain ⟨h1, h2⟩ := retry_preserves now gwOkR s
  have hm1 : (processTwoHourRetries now gwOkR s).2.1.contact.persistenceMode = false :=
    h1.trans hm
  have hr1 : ∃ u, (processTwoHourRetries now gwOkR s).2.1.contact.lastRetryAt = some u := by
    rcases h2 with h2 | h2
    · exact ⟨t, h2.trans hr⟩
    · exact ⟨now, h2⟩
  obtain ⟨u, hu⟩ := hr1
  unfold processRetriesAndPersistence
  simp [persistence_skip now gwOkP _ u hm1 hu]

/-- Witness for C1 (amended) at a concrete contact that answered NO two
hours ago and never entered persistence mode. -/
theorem C1_no_persistence_when_retry_pending_witness :
    ({ contact := { cBob with lastRetryAt := some 0, retryCount := 1 },
       conv := vAwait, rows := [] } : PState).contact.persistenceMode = false ∧
    ({ contact := { cBob with lastRetryAt := some 0, retryCount := 1 },
       conv := vAwait, rows := [] } : PState).contact.lastRetryAt = some 0 ∧
    ((processRetriesAndPersistence 7200 true true
        { contact := { cBob with lastRetryAt := some 0, retryCount := 1 },
          conv := vAwait, rows := [] }).persistenceSent = 0 ∧
     (processRetriesAndPersistence 7200 true true
        { contact := { cBob with lastRetryAt := some 0, retryCount := 1 },
          conv := vAwait, rows := [] }).persistenceSends = []) :=
  ⟨by decide, by decide,
   C1_no_persistence_when_retry_pending 7200 true true _ 0 (by decide) (by decide)⟩

/-- Reachable trace for the C1 counterexample: follow-up at time 0, a
persistence escalation at 600s of silence, then an inbound NO at 700. -/
def c1Trace : PState :=
  (handleIncomingSms 700 true "+1999"
    (processRetriesAndPersistence 600 true true
      (sendFollowUpSms 0 true "+1999" "+15550001111" cNew).state).state
    "+15550001111" "no" "SID1").state

/-- Counterexample to C1: after silence escalated the contact into
persistence mode and a NO then started the 2-hour retry window, the very
next tick (10 minutes after the NO, with the 2-hour window still pending)
still sends a persistence message. -/
theorem C1_counterexample :
    c1Trace.contact.lastRetryAt = some 700 ∧
    c1Trace.contact.persistenceMode = true ∧
    c1Trace.conv.state = ConversationState.AWAITING_CONTACT_CONFIRMATION ∧
    c1Trace.conv.completedAt = none ∧
    (processRetriesAndPersistence 1300 true true c1Trace).retriesSent = 0 ∧
    (processRetriesAndPersistence 1300 true true c1Trace).persistenceSent = 1 := by
  decide

/-! ### Claim C6 -/

/-- The committed store after: follow-up prompt at `t0`, inbound NO at
`now`, both sends succeeding. -/
def c6state (t0 now : Nat) (twPhone techPhone sid : String) (c : Contact) : PState :=
  (handleIncomingSms now true twPhone
    (sendFollowUpSms t0 true twPhone techPhone c).state techPhone "no" sid).state

/-- Evaluation of the follow-up-then-NO trace to an explicit store. -/
theorem c6state_eq (t0 now : Nat) (twPhone techPhone sid : String) (c : Contact) :
    c6state t0 now twPhone techPhone sid c =
      { contact := { c with status := ContactStatus.FOLLOW_UP_SENT,
                            retryCount := c.retryCount + 1, lastRetryAt := some now },
        conv := { state := ConversationState.AWAITING_CONTACT_CONFIRMATION,
                  technicianPhone := techPhone, contactConfirmed := false,
                  outcome := none, outcomeDetails := none,
                  startedAt := t0, lastMessageAt := now, completedAt := none },
        rows := [outboundRow t0 twPhone ⟨techPhone, followUpPrompt (nameOr c.fullName "the new contact")⟩,
                 inboundRow now techPhone twPhone "no" sid,
                 outboundRow now twPhone ⟨techPhone, retryAck c.fullName⟩] } := by
  have hy : isYesResponse (lowerStrip "no") = false := by decide
  have hn : isNoResponse (lowerStrip "no") = true := by decide
  unfold c6state handleIncomingSms sendFollowUpSms dispatchState handleContactConfirmation
  simp [hy, hn, outboundRow]

/-- A tick on a due 2-hour-retry contact with persistence mode off: one
retry prompt, `last_retry_at` bumped, no persistence message. -/
theorem tick_retry_fires (now : Nat) (s : PState) (t : Nat)
    (hr : s.contact.lastRetryAt = some t) (hle : t + 7200 ≤ now)
    (hst : s.conv.state = ConversationState.AWAITING_CONTACT_CONFIRMATION)
    (hco : s.conv.completedAt = none)
    (hm : s.contact.persistenceMode = false) :
    (processRetriesAndPersistence now true true s).retriesSent = 1 ∧
    (processRetriesAndPersistence now true true s).retrySends =
      [⟨s.conv.technicianPhone, retryPrompt (nameOr s.contact.fullName "the contact")⟩] ∧
    (processRetriesAndPersistence now true true s).state.contact.lastRetryAt = some now ∧
    (processRetriesAndPersistence now true true s).persistenceSent = 0 ∧
    (processRetriesAndPersistence now true true s).persistenceSends = [] := by
  have he : retryEligible now s = true := by
    simp [retryEligible, hr, hst, hco, hle]
  have hskip := persistence_skip now true
    { s with contact := { s.contact with lastRetryAt := some now },
             rows := s.rows ++ [outboundRow now s.conv.technicianPhone
               ⟨s.conv.technicianPhone, retryPrompt (nameOr s.contact.fullName "the contact")⟩] }
    now (by simpa using hm) (by simp)
  unfold processRetriesAndPersistence processTwoHourRetries
  simp [he, hskip]

/-- C6: from a fresh follow-up (retry count 0, persistence off), an inbound
NO sets `retry_count=1` and `last_retry_at=now` and keeps the conversation
in `AWAITING_CONTACT_CONFIRMATION`; a single scheduler tick at `now + 2h`
then sends exactly one retry prompt, bumps `last_retry_at`, and sends no
persistence message. -/
theorem C6_no_then_two_hour_retry (t0 now : Nat) (twPhone techPhone sid : String)
    (c : Contact) (hrc : c.retryCount = 0) (hpm : c.persistenceMode = false) :
    (c6state t0 now twPhone techPhone sid c).contact.retryCount = 1 ∧
    (c6state t0 now twPhone techPhone sid c).contact.lastRetryAt = some now ∧
    (c6state t0 now twPhone techPhone sid c).conv.state =
      ConversationState.AWAITING_CONTACT_CONFIRMATION ∧
    (processRetriesAndPersistence (now + 7200) true true
        (c6state t0 now twPhone techPhone sid c)).retriesSent = 1 ∧
    (processRetriesAndPersistence (now + 7200) true true
        (c6state t0 now twPhone techPhone sid c)).retrySends =
      [⟨techPhone, retryPrompt (nameOr c.fullName "the contact")⟩] ∧
    (processRetriesAndPersistence (now + 7200) true true
        (c6state t0 now twPhone techPhone sid c)).state.contact.lastRetryAt =
      some (now + 7200) ∧
    (processRetriesAndPersistence (now + 7200) true true
        (c6state t0 now twPhone techPhone sid c)).persistenceSent = 0 ∧
    (processRetriesAndPersistence (now + 7200) true true
        (c6state t0 now twPhone techPhone sid c)).persistenceSends = [] := by
  rw [c6state_eq t0 now twPhone techPhone sid c]
  set s1 : PState :=
    { contact := { c with status := ContactStatus.FOLLOW_UP_SENT,
                          retryCount := c.retryCount + 1, lastRetryAt := some now },
      conv := { state := ConversationState.AWAITING_CONTACT_CONFIRMATION,
                technicianPhone := techPhone, contactConfirmed := false,
                outcome := none, outcomeDetails := none,
                startedAt := t0, lastMessageAt := now, completedAt := none },
      rows := [outboundRow t0 twPhone ⟨techPhone, followUpPrompt (nameOr c.fullName "the new contact")⟩,
               inboundRow now techPhone twPhone "no" sid,
               outboundRow now twPhone ⟨techPhone, retryAck c.fullName⟩] } with hs1
  obtain ⟨a1, a2, a3, a4, a5⟩ :=
    tick_retry_fires (now + 7200) s1 now (by rw [hs1]) (by omega) (by rw [hs1])
      (by rw [hs1]) (by rw [hs1]; simpa using hpm)
  refine ⟨by rw [hs1]; simp [hrc], by rw [hs1], by rw [hs1], a1, ?_, a3, a4, a5⟩
  rw [a2, hs1]

/-- Witness for C6 with the follow-up at time 0 and the NO at time 100. -/
theorem C6_no_then_two_hour_retry_witness :
    cNew.retryCount = 0 ∧ cNew.persistenceMode = false ∧
    ((c6state 0 100 "+1999" "+15550001111" "SID1" cNew).contact.retryCount = 1 ∧
     (c6state 0 100 "+1999" "+15550001111" "SID1" cNew).contact.lastRetryAt = some 100 ∧
     (c6state 0 100 "+1999" "+15550001111" "SID1" cNew).conv.state =
       ConversationState.AWAITING_CONTACT_CONFIRMATION ∧
     (processRetriesAndPersistence (100 + 7200) true true
         (c6state 0 100 "+1999" "+15550001111" "SID1" cNew)).retriesSent = 1 ∧
     (processRetriesAndPersistence (100 + 7200) true true
         (c6state 0 100 "+1999" "+15550001111" "SID1" cNew)).retrySends =
       [⟨"+15550001111", retryPrompt (nameOr cNew.fullName "the contact")⟩] ∧
     (processRetriesAndPersistence (100 + 7200) true true
         (c6state 0 100 "+1999" "+15550001111" "SID1" cNew)).state.contact.lastRetryAt =
       some (100 + 7200) ∧
     (processRetriesAndPersistence (100 + 7200) true true
         (c6state 0 100 "+1999" "+15550001111" "SID1" cNew)).persistenceSent = 0 ∧
     (processRetriesAndPersistence (100 + 7200) true true
         (c6state 0 100 "+1999" "+15550001111" "SID1" cNew)).persistenceSends = []) :=
  ⟨by decide, by decide,
   C6_no_then_two_hour_retry 0 100 "+1999" "+15550001111" "SID1" cNew (by decide) (by decide)⟩

/-! ### Claim C4 -/

/-- Per-state recognized-intent guard, exactly the condition each handler
tests on the (normalized) inbound text. -/
def recognizedB : ConversationState → String → Bool
  | ConversationState.AWAITING_CONTACT_CONFIRMATION, b =>
      isYesResponse (lowerStrip b) || isNoResponse (lowerStrip b)
  | ConversationState.AWAITING_OUTCOME, b => (parseOutcome (lowerStrip b)).isSome
  | ConversationState.AWAITING_PROJECT_TYPE, b => projectTypeRecognized (stripLower b)
  | ConversationState.AWAITING_PROPERTY_TYPE, b => (propertyTypeParse (stripLower b)).isSome
  | ConversationState.AWAITING_RESIDENTIAL_SUBTYPE, b => (subtypeParse (stripLower b)).isSome
  | ConversationState.AWAITING_INSURANCE, b =>
      isYesResponse (stripLower b) || isNoResponse (stripLower b)
  | ConversationState.AWAITING_INSURANCE_COMPANY, _ => true
  | ConversationState.AWAITING_REFERRAL_SOURCE, b => referralRecognized (stripLower b)
  | _, _ => false

/-- The fixed clarification text each handler re-sends on unrecognized
input (`none` for states that never re-prompt). -/
def rePromptFor : ConversationState → String → Option String
  | ConversationState.AWAITING_CONTACT_CONFIRMATION, name => some (confirmRePrompt name)
  | ConversationState.AWAITING_OUTCOME, _ => some outcomeRePrompt
  | ConversationState.AWAITING_PROJECT_TYPE, _ => some projectTypeRePrompt
  | ConversationState.AWAITING_PROPERTY_TYPE, _ => some propertyTypeRePrompt
  | ConversationState.AWAITING_RESIDENTIAL_SUBTYPE, _ => some subtypeRePrompt
  | ConversationState.AWAITING_INSURANCE, _ => some insuranceRePrompt
  | ConversationState.AWAITING_REFERRAL_SOURCE, _ => some referralRePrompt
  | _, _ => none

/-- Unrecognized YES/NO reply: `_handle_contact_confirmation` re-prompts. -/
theorem confirmation_unrecognized (now : Nat) (gwOk : Bool) (c : Contact)
    (v : Conversation) (body : String)
    (h1 : isYesResponse (lowerStrip body) = false)
    (h2 : isNoResponse (lowerStrip body) = false) :
    handleContactConfirmation now gwOk c v body =
      { ret := false, contact := c, conv := v,
        sends := if gwOk then [⟨v.technicianPhone, confirmRePrompt c.fullName⟩] else [] } := by
  simp [handleContactConfirmation, h1, h2]

/-- Unrecognized outcome reply: `_handle_outcome_response` re-prompts. -/
theorem outcome_unrecognized (now : Nat) (gwOk : Bool) (c : Contact)
    (v : Conversation) (body : String)
    (h : parseOutcome (lowerStrip body) = none) :
    handleOutcomeResponse now gwOk c v body =
      { ret := false, contact := c, conv := v,
        sends := if gwOk then [⟨v.technicianPhone, outcomeRePrompt⟩] else [] } := by
  simp [handleOutcomeResponse, h]

/-- Unrecognized project-type reply: `_handle_project_type` re-prompts. -/
theorem projectType_unrecognized (now : Nat) (gwOk : Bool) (c : Contact)
    (v : Conversation) (body : String)
    (h : projectTypeRecognized (stripLower body) = false) :
    handleProjectType now gwOk c v body =
      { ret := false, contact := c, conv := v,
        sends := if gwOk then [⟨v.technicianPhone, projectTypeRePrompt⟩] else [] } := by
  simp [handleProjectType, h]

/-- Unrecognized property-type reply: `_handle_property_type` re-prompts. -/
theorem propertyType_unrecognized (now : Nat) (gwOk : Bool) (c : Contact)
    (v : Conversation) (body : String)
    (h : propertyTypeParse (stripLower body) = none) :
    handlePropertyType now gwOk c v body =
      { ret := false, contact := c, conv := v,
        sends := if gwOk then [⟨v.technicianPhone, propertyTypeRePrompt⟩] else [] } := by
  simp [handlePropertyType, h]

/-- Unrecognized subtype reply: `_handle_residential_subtype` re-prompts. -/
theorem subtype_unrecognized (now : Nat) (gwOk : Bool) (c : Contact)
    (v : Conversation) (body : String)
    (h : subtypeParse (stripLower body) = none) :
    handleResidentialSubtype now gwOk c v body =
      { ret := false, contact := c, conv := v,
        sends := if gwOk then [⟨v.technicianPhone, subtypeRePrompt⟩] else [] } := by
  simp [handleResidentialSubtype, h]

/-- Unrecognized insurance reply: `_handle_insurance` re-prompts. -/
theorem insurance_unrecognized (now : Nat) (gwOk : Bool) (c : Contact)
    (v : Conversation) (body : String)
    (h1 : isYesResponse (stripLower body) = false)
    (h2 : isNoResponse (stripLower body) = false) :
    handleInsurance now gwOk c v body =
      { ret := false, contact := c, conv := v,
        sends := if gwOk then [⟨v.technicianPhone, insuranceRePrompt⟩] else [] } := by
  simp [handleInsurance, h1, h2]

/-- Unrecognized referral reply: `_handle_referral_source` re-prompts. -/
theorem referral_unrecognized (now : Nat) (gwOk : Bool) (c : Contact)
    (v : Conversation) (body : String)
    (h : referralRecognized (stripLower body) = false) :
    handleReferralSource now gwOk c v body =
      { ret := false, contact := c, conv := v,
        sends := if gwOk then [⟨v.technicianPhone, referralRePrompt⟩] else [] } := by
  simp [handleReferralSource, h]

/-- A dispatched handler that returns `False` makes the whole inbound
operation a no-op on the committed store (nothing is committed). -/
theorem wrapper_unrecognized (now : Nat) (twPhone : String) (s : PState)
    (fromNumber body sid : String) (h0 : HRes)
    (hph : s.conv.technicianPhone = fromNumber)
    (hact : s.conv.state ≠ ConversationState.COMPLETED)
    (hsid : s.rows.filter (fun m => m.twilioSid = some sid) = [])
    (hd : dispatchState now true s.contact s.conv body = some h0)
    (hr : h0.ret = false) :
    handleIncomingSms now true twPhone s fromNumber body sid =
      { ret := false, state := s, sends := h0.sends } := by
  unfold handleIncomingSms
  rw [if_pos ⟨hph, hact⟩, if_neg (by rw [hsid]; simp), hd]
  simp [hr]

/-- C4 (amended): in each of the seven states that own a clarification
prompt, an inbound message matching no recognized intent leaves the
committed conversation and contact unchanged and generates exactly one
outbound message — the state's fixed clarification prompt, which is not in
general the text that elicited the input (and `AWAITING_INSURANCE_COMPANY`
accepts everything, while `INITIAL` answers nothing at all). -/
theorem C4_unrecognized_leaves_state_and_reprompts (now : Nat) (twPhone : String)
    (s : PState) (fromNumber body sid rp : String)
    (hph : s.conv.technicianPhone = fromNumber)
    (hsid : s.rows.filter (fun m => m.twilioSid = some sid) = [])
    (hrp : rePromptFor s.conv.state s.contact.fullName = some rp)
    (hrec : recognizedB s.conv.state body = false) :
    handleIncomingSms now true twPhone s fromNumber body sid =
      { ret := false, state := s, sends := [⟨fromNumber, rp⟩] } := by
  have hact : s.conv.state ≠ ConversationState.COMPLETED := by
    intro h; rw [h] at hrp; exact Option.noConfusion hrp
  cases hst : s.conv.state
  case INITIAL => rw [hst] at hrp; exact absurd hrp (by simp [rePromptFor])
  case AWAITING_APPOINTMENT_DATETIME =>
    rw [hst] at hrp; exact absurd hrp (by simp [rePromptFor])
  case AWAITING_APPOINTMENT_CONFLICT_CONFIRMATION =>
    rw [hst] at hrp; exact absurd hrp (by simp [rePromptFor])
  case AWAITING_INSURANCE_COMPANY =>
    rw [hst] at hrec; exact absurd hrec (by simp [recognizedB])
  case COMPLETED => exact absurd hst hact
  case AWAITING_CONTACT_CONFIRMATION =>
    rw [hst] at hrp hrec
    simp only [recognizedB, Bool.or_eq_false_iff] at hrec
    obtain ⟨h1, h2⟩ := hrec
    have hd : dispatchState now true s.contact s.conv body =
        some { ret := false, contact := s.contact, conv := s.conv,
               sends := [⟨s.conv.technicianPhone, confirmRePrompt s.contact.fullName⟩] } := by
      unfold dispatchState
      rw [hst, confirmation_unrecognized now true s.contact s.conv body h1 h2]
      simp
    rw [wrapper_unrecognized now twPhone s fromNumber body sid _ hph hact hsid hd rfl]
    simp only [rePromptFor, Option.some.injEq] at hrp
    rw [hph, hrp]
  case AWAITING_OUTCOME =>
    rw [hst] at hrp hrec
    simp only [recognizedB] at hrec
    have hnone : parseOutcome (lowerStrip body) = none := by
      cases hpo : parseOutcome (lowerStrip body)
      · rfl
      · rw [hpo] at hrec; simp at hrec
    have hd : dispatchState now true s.contact s.conv body =
        some { ret := false, contact := s.contact, conv := s.conv,
               sends := [⟨s.conv.technicianPhone, outcomeRePrompt⟩] } := by
      unfold dispatchState
      rw [hst, outcome_unrecognized now true s.contact s.conv body hnone]
      simp
    rw [wrapper_unrecognized now twPhone s fromNumber body sid _ hph hact hsid hd rfl]
    simp only [rePromptFor, Option.some.injEq] at hrp
    rw [hph, hrp]
  case AWAITING_PROJECT_TYPE =>
    rw [hst] at hrp hrec
    simp only [recognizedB] at hrec
    have hd : dispatchState now true s.contact s.conv body =
        some { ret := false, contact := s.contact, conv := s.conv,
               sends := [⟨s.conv.technicianPhone, projectTypeRePrompt⟩] } := by
      unfold dispatchState
      rw [hst, projectType_unrecognized now true s.contact s.conv body hrec]
      simp
    rw [wrapper_unrecognized now twPhone s fromNumber body sid _ hph hact hsid hd rfl]
    simp only [rePromptFor, Option.some.injEq] at hrp
    rw [hph, hrp]
  case AWAITING_PROPERTY_TYPE =>
    rw [hst] at hrp hrec
    simp only [recognizedB] at hrec
    have hnone : propertyTypeParse (stripLower body) = none := by
      cases hpo : propertyTypeParse (stripLower body)
      · rfl
      · rw [hpo] at hrec; simp at hrec
    have hd : dispatchState now true s.contact s.conv body =
        some { ret := false, contact := s.contact, conv := s.conv,
               sends := [⟨s.conv.technicianPhone, propertyTypeRePrompt⟩] } := by
      unfold dispatchState
      rw [hst, propertyType_unrecognized now true s.contact s.conv body hnone]
      simp
    rw [wrapper_unrecognized now twPhone s fromNumber body sid _ hph hact hsid hd rfl]
    simp only [rePromptFor, Option.some.injEq] at hrp
    rw [hph, hrp]
  case AWAITING_RESIDENTIAL_SUBTYPE =>
    rw [hst] at hrp hrec
    simp only [recognizedB] at hrec
    have hnone : subtypeParse (stripLower body) = none := by
      cases hpo : subtypeParse (stripLower body)
      · rfl
      · rw [hpo] at hrec; simp at hrec
    have hd : dispatchState now true s.contact s.conv body =
        some { ret := false, contact := s.contact, conv := s.conv,
               sends := [⟨s.conv.technicianPhone, subtypeRePrompt⟩] } := by
      unfold dispatchState
      rw [hst, subtype_unrecognized now true s.contact s.conv body hnone]
      simp
    rw [wrapper_unrecognized now twPhone s fromNumber body sid _ hph hact hsid hd rfl]
    simp only [rePromptFor, Option.some.injEq] at hrp
    rw [hph, hrp]
  case AWAITING_INSURANCE =>
    rw [hst] at hrp hrec
    simp only [recognizedB, Bool.or_eq_false_iff] at hrec
    obtain ⟨h1, h2⟩ := hrec
    have hd : dispatchState now true s.contact s.conv body =
        some { ret := false, contact := s.contact, conv := s.conv,
               sends := [⟨s.conv.technicianPhone, insuranceRePrompt⟩] } := by
      unfold dispatchState
      rw [hst, insurance_unrecognized now true s.contact s.conv body h1 h2]
      simp
    rw [wrapper_unrecognized now twPhone s fromNumber body sid _ hph hact hsid hd rfl]
    simp only [rePromptFor, Option.some.injEq] at hrp
    rw [hph, hrp]
  case AWAITING_REFERRAL_SOURCE =>
    rw [hst] at hrp hrec
    simp only [recognizedB] at hrec
    have hd : dispatchState now true s.contact s.conv body =
        some { ret := false, contact := s.contact, conv := s.conv,
               sends := [⟨s.conv.technicianPhone, referralRePrompt⟩] } := by
      unfold dispatchState
      rw [hst, referral_unrecognized now true s.contact s.conv body hrec]
      simp
    rw [wrapper_unrecognized now twPhone s fromNumber body sid _ hph hact hsid hd rfl]
    simp only [rePromptFor, Option.some.injEq] at hrp
    rw [hph, hrp]

/-- Witness for C4: the unrecognized reply "ok" right after the follow-up
prompt. -/
theorem C4_unrecognized_leaves_state_and_reprompts_witness :
    pFresh.conv.technicianPhone = "+15550001111" ∧
    pFresh.rows.filter (fun m => m.twilioSid = some "SID1") = [] ∧
    rePromptFor pFresh.conv.state pFresh.contact.fullName = some (confirmRePrompt "Bob") ∧
    recognizedB pFresh.conv.state "ok" = false ∧
    handleIncomingSms 5 true "+1999" pFresh "+15550001111" "ok" "SID1" =
      { ret := false, state := pFresh, sends := [⟨"+15550001111", confirmRePrompt "Bob"⟩] } :=
  ⟨by decide, by decide, by decide, by decide,
   C4_unrecognized_leaves_state_and_reprompts 5 "+1999" pFresh "+15550001111" "ok" "SID1"
     (confirmRePrompt "Bob") (by decide) (by decide) (by decide) (by decide)⟩

/-- The fresh follow-up store with its conversation state forced to the
model-default `INITIAL`. -/
def pInit : PState := { pFresh with conv := { pFresh.conv with state := ConversationState.INITIAL } }

/-- Counterexample to C4: the prompt that elicited the unrecognized input is
the follow-up prompt, but the re-prompt sent is the different clarification
text; and in the non-terminal `INITIAL` state no re-prompt is sent at all. -/
theorem C4_counterexample :
    (sendFollowUpSms 0 true "+1999" "+15550001111" cNew).sends =
      [⟨"+15550001111", followUpPrompt "Bob"⟩] ∧
    (handleIncomingSms 5 true "+1999" pFresh "+15550001111" "ok" "SID1").sends =
      [⟨"+15550001111", confirmRePrompt "Bob"⟩] ∧
    confirmRePrompt "Bob" ≠ followUpPrompt "Bob" ∧
    (handleIncomingSms 5 true "+1999" pInit "+15550001111" "ok" "SID1").sends = [] ∧
    (handleIncomingSms 5 true "+1999" pInit "+15550001111" "ok" "SID1").state = pInit := by
  decide

/-! ### Claim C3 -/

/-- No handler ever changes the conversation's technician phone. -/
theorem hcc_phone (now : Nat) (gwOk : Bool) (c : Contact) (v : Conversation) (b : String) :
    (handleContactConfirmation now gwOk c v b).conv.technicianPhone = v.technicianPhone := by
  unfold handleContactConfirmation; split_ifs <;> rfl

/-- `_handle_outcome_response` keeps the technician phone. -/
theorem hor_phone (now : Nat) (gwOk : Bool) (c : Contact) (v : Conversation) (b : String) :
    (handleOutcomeResponse now gwOk c v b).conv.technicianPhone = v.technicianPhone := by
  unfold handleOutcomeResponse
  cases hpo : parseOutcome (lowerStrip b)
  · rfl
  · dsimp only
    split_ifs <;> rfl

/-- `_handle_project_type` keeps the technician phone. -/
theorem hpt_phone (now : Nat) (gwOk : Bool) (c : Contact) (v : Conversation) (b : String) :
    (handleProjectType now gwOk c v b).conv.technicianPhone = v.technicianPhone := by
  unfold handleProjectType; split_ifs <;> rfl

/-- `_handle_property_type` keeps the technician phone. -/
theorem hpr_phone (now : Nat) (gwOk : Bool) (c : Contact) (v : Conversation) (b : String) :
    (handlePropertyType now gwOk c v b).conv.technicianPhone = v.technicianPhone := by
  unfold handlePropertyType
  cases hpo : propertyTypeParse (stripLower b)
  · rfl
  · dsimp only
    split_ifs <;> rfl

/-- `_handle_residential_subtype` keeps the technician phone. -/
theorem hrs_phone (now : Nat) (gwOk : Bool) (c : Contact) (v : Conversation) (b : String) :
    (handleResidentialSubtype now gwOk c v b).conv.technicianPhone = v.technicianPhone := by
  unfold handleResidentialSubtype
  cases hpo : subtypeParse (stripLower b)
  · rfl
  · rfl

/-- `_handle_insurance` keeps the technician phone. -/
theorem hin_phone (now : Nat) (gwOk : Bool) (c : Contact) (v : Conversation) (b : String) :
    (handleInsurance now gwOk c v b).conv.technicianPhone = v.technicianPhone := by
  unfold handleInsurance; split_ifs <;> rfl

/-- `_handle_insurance_company` keeps the technician phone. -/
theorem hic_phone (now : Nat) (gwOk : Bool) (c : Contact) (v : Conversation) (b : String) :
    (handleInsuranceCompany now gwOk c v b).conv.technicianPhone = v.technicianPhone := rfl

/-- `_handle_referral_source` keeps the technician phone. -/
theorem hrf_phone (now : Nat) (gwOk : Bool) (c : Contact) (v : Conversation) (b : String) :
    (handleReferralSource now gwOk c v b).conv.technicianPhone = v.technicianPhone := by
  unfold handleReferralSource; split_ifs <;> rfl

/-- No dispatched handler ever changes the conversation's technician phone. -/
theorem dispatch_preserves_phone (now : Nat) (gwOk : Bool) (c : Contact)
    (v : Conversation) (b : String) (h0 : HRes)
    (hd : dispatchState now gwOk c v b = some h0) :
    h0.conv.technicianPhone = v.technicianPhone := by
  unfold dispatchState at hd
  cases hv : v.state <;> rw [hv] at hd
  case INITIAL => exact Option.noConfusion hd
  case AWAITING_APPOINTMENT_DATETIME => exact Option.noConfusion hd
  case AWAITING_APPOINTMENT_CONFLICT_CONFIRMATION => exact Option.noConfusion hd
  case COMPLETED => exact Option.noConfusion hd
  case AWAITING_CONTACT_CONFIRMATION =>
    obtain rfl := Option.some.inj hd; exact hcc_phone now gwOk c v b
  case AWAITING_OUTCOME =>
    obtain rfl := Option.some.inj hd; exact hor_phone now gwOk c v b
  case AWAITING_PROJECT_TYPE =>
    obtain rfl := Option.some.inj hd; exact hpt_phone now gwOk c v b
  case AWAITING_PROPERTY_TYPE =>
    obtain rfl := Option.some.inj hd; exact hpr_phone now gwOk c v b
  case AWAITING_RESIDENTIAL_SUBTYPE =>
    obtain rfl := Option.some.inj hd; exact hrs_phone now gwOk c v b
  case AWAITING_INSURANCE =>
    obtain rfl := Option.some.inj hd; exact hin_phone now gwOk c v b
  case AWAITING_INSURANCE_COMPANY =>
    obtain rfl := Option.some.inj hd; exact hic_phone now gwOk c v b
  case AWAITING_REFERRAL_SOURCE =>
    obtain rfl := Option.some.inj hd; exact hrf_phone now gwOk c v b

/-- A successfully handled inbound message means the conversation was found
and a dispatched handler committed: the resulting rows contain the inbound
row carrying the webhook sid. -/
theorem incoming_ret_true_elim (now : Nat) (gwOk : Bool) (tw : String) (s : PState)
    (f b sid : String)
    (h : (handleIncomingSms now gwOk tw s f b sid).ret = true) :
    s.conv.technicianPhone = f ∧
    ∃ h0, dispatchState now gwOk s.contact s.conv b = some h0 ∧
      (handleIncomingSms now gwOk tw s f b sid).state =
        { contact := h0.contact, conv := h0.conv,
          rows := s.rows ++ [inboundRow now f tw b sid] ++
                  h0.sends.map (outboundRow now tw) } := by
  unfold handleIncomingSms at h ⊢
  by_cases hc : s.conv.technicianPhone = f ∧ s.conv.state ≠ ConversationState.COMPLETED
  · rw [if_pos hc] at h ⊢
    by_cases hdup : (s.rows.filter (fun m => m.twilioSid = some sid)).length ≠ 0
    · rw [if_pos hdup] at h; simp at h
    · rw [if_neg hdup] at h ⊢
      cases hd : dispatchState now gwOk s.contact s.conv b with
      | none => rw [hd] at h; simp at h
      | some h0 =>
        rw [hd] at h
        dsimp only at h ⊢
        by_cases hr : h0.ret = true
        · rw [if_pos hr]
          exact ⟨hc.1, h0, rfl, rfl⟩
        · rw [if_neg hr] at h
          simp at h
  · rw [if_neg hc] at h; simp at h

/-- C3 (amended): when the first delivery of a webhook message is handled
successfully (the handler commits), redelivering the same `twilio_sid` is
rejected by the unique constraint at the logging flush: the second call
returns `False`, commits nothing — so exactly one inbound row and at most
one transition exist — and, while the conversation is still open, sends
nothing.  (A first delivery that ends in a re-prompt commits nothing, so its
duplicate is reprocessed; see the counterexample.) -/
theorem C3_duplicate_sid_skipped (now1 now2 : Nat) (gw1 gw2 : Bool)
    (tw f b sid : String) (s : PState)
    (h : (handleIncomingSms now1 gw1 tw s f b sid).ret = true) :
    (handleIncomingSms now2 gw2 tw (handleIncomingSms now1 gw1 tw s f b sid).state f b sid).ret = false ∧
    (handleIncomingSms now2 gw2 tw (handleIncomingSms now1 gw1 tw s f b sid).state f b sid).state =
      (handleIncomingSms now1 gw1 tw s f b sid).state ∧
    ((handleIncomingSms now1 gw1 tw s f b sid).state.conv.state ≠ ConversationState.COMPLETED →
      (handleIncomingSms now2 gw2 tw (handleIncomingSms now1 gw1 tw s f b sid).state f b sid).sends = []) := by
  obtain ⟨hph, h0, hd, hst⟩ := incoming_ret_true_elim now1 gw1 tw s f b sid h
  have hph2 : (handleIncomingSms now1 gw1 tw s f b sid).state.conv.technicianPhone = f := by
    rw [hst]
    exact (dispatch_preserves_phone now1 gw1 s.contact s.conv b h0 hd).trans hph
  have hdup : ((handleIncomingSms now1 gw1 tw s f b sid).state.rows.filter
      (fun m => m.twilioSid = some sid)).length ≠ 0 := by
    rw [hst]
    simp [List.filter_append, inboundRow]
  set s1 := (handleIncomingSms now1 gw1 tw s f b sid).state with hs1
  by_cases hc : s1.conv.state = ConversationState.COMPLETED
  · unfold handleIncomingSms
    rw [if_neg (fun hand => hand.2 hc)]
    exact ⟨rfl, rfl, fun hne => absurd hc hne⟩
  · unfold handleIncomingSms
    rw [if_pos ⟨hph2, hc⟩, if_pos hdup]
    exact ⟨rfl, rfl, fun _ => rfl⟩

/-- Witness for C3 at a successfully handled YES delivered twice with the
same sid. -/
theorem C3_duplicate_sid_skipped_witness :
    (handleIncomingSms 5 true "+1999" pFresh "+15550001111" "yes" "SID1").ret = true ∧
    ((handleIncomingSms 6 true "+1999"
        (handleIncomingSms 5 true "+1999" pFresh "+15550001111" "yes" "SID1").state
        "+15550001111" "yes" "SID1").ret = false ∧
     (handleIncomingSms 6 true "+1999"
        (handleIncomingSms 5 true "+1999" pFresh "+15550001111" "yes" "SID1").state
        "+15550001111" "yes" "SID1").state =
       (handleIncomingSms 5 true "+1999" pFresh "+15550001111" "yes" "SID1").state ∧
     ((handleIncomingSms 5 true "+1999" pFresh "+15550001111" "yes" "SID1").state.conv.state ≠
        ConversationState.COMPLETED →
       (handleIncomingSms 6 true "+1999"
          (handleIncomingSms 5 true "+1999" pFresh "+15550001111" "yes" "SID1").state
          "+15550001111" "yes" "SID1").sends = [])) :=
  ⟨by decide,
   C3_duplicate_sid_skipped 5 6 true true "+1999" "+15550001111" "yes" "SID1" pFresh (by decide)⟩

/-- Counterexample to C3: an unrecognized reply is never committed (its
handler path skips `db.commit()`), so delivering it twice with the same sid
leaves zero logged inbound rows with that sid — not one — and the second
delivery was fully reprocessed (it sent a second re-prompt) instead of
being detected as already logged. -/
theorem C3_counterexample :
    ((handleIncomingSms 6 true "+1999"
        (handleIncomingSms 5 true "+1999" pFresh "+15550001111" "ok" "SID1").state
        "+15550001111" "ok" "SID1").state.rows.filter
          (fun m => m.twilioSid = some "SID1")).length = 0 ∧
    (handleIncomingSms 6 true "+1999"
        (handleIncomingSms 5 true "+1999" pFresh "+15550001111" "ok" "SID1").state
        "+15550001111" "ok" "SID1").sends =
      [⟨"+15550001111", confirmRePrompt "Bob"⟩] := by
  decide

/-! ### Claim C7 -/

/-- Happy-path trace, step 1: YES. -/
def c7r1 : OpRes := handleIncomingSms 1 true "+1999" pFresh "+15550001111" "YES" "R1"
/-- Step 2: outcome 1 (appointment set). -/
def c7r2 : OpRes := handleIncomingSms 2 true "+1999" c7r1.state "+15550001111" "1" "R2"
/-- Step 3: project type 2 (Mold). -/
def c7r3 : OpRes := handleIncomingSms 3 true "+1999" c7r2.state "+15550001111" "2" "R3"
/-- Step 4: property type 1 (Residential). -/
def c7r4 : OpRes := handleIncomingSms 4 true "+1999" c7r3.state "+15550001111" "1" "R4"
/-- Step 5: residential subtype 1 (Single Family Home). -/
def c7r5 : OpRes := handleIncomingSms 5 true "+1999" c7r4.state "+15550001111" "1" "R5"
/-- Step 6: insurance YES. -/
def c7r6 : OpRes := handleIncomingSms 6 true "+1999" c7r5.state "+15550001111" "YES" "R6"
/-- Step 7: insurance company "State Farm". -/
def c7r7 : OpRes := handleIncomingSms 7 true "+1999" c7r6.state "+15550001111" "State Farm" "R7"
/-- Step 8: referral source 1 (Customer Referral). -/
def c7r8 : OpRes := handleIncomingSms 8 true "+1999" c7r7.state "+15550001111" "1" "R8"

/-- C7: the full happy-path conversation (YES, appointment set, project type
2, property Residential, subtype 1, insurance YES, "State Farm", referral 1)
ends in `COMPLETED` with all collected fields populated as entered, and the
eight operations deliver exactly the seven state prompts plus the final
summary message. -/
theorem C7_happy_path_round_trip :
    c7r8.state.conv.state = ConversationState.COMPLETED ∧
    c7r8.state.conv.contactConfirmed = true ∧
    c7r8.state.contact.outcome = ContactOutcome.APPOINTMENT_SET ∧
    c7r8.state.contact.projectType = some "Mold" ∧
    c7r8.state.contact.propertyType = some "Residential" ∧
    c7r8.state.contact.residentialSubtype = some "Single Family Home" ∧
    c7r8.state.contact.hasInsurance = some true ∧
    c7r8.state.contact.insuranceCompany = some "State Farm" ∧
    c7r8.state.contact.referralSource = some "Customer Referral" ∧
    c7r1.sends ++ c7r2.sends ++ c7r3.sends ++ c7r4.sends ++
      c7r5.sends ++ c7r6.sends ++ c7r7.sends ++ c7r8.sends =
      [⟨"+15550001111", outcomePrompt "Bob"⟩,
       ⟨"+15550001111", projectTypePrompt "Bob"⟩,
       ⟨"+15550001111", propertyTypePrompt⟩,
       ⟨"+15550001111", subtypePrompt⟩,
       ⟨"+15550001111", insurancePrompt⟩,
       ⟨"+15550001111", insuranceCompanyPrompt⟩,
       ⟨"+15550001111", referralPrompt⟩,
       ⟨"+15550001111", summaryMsg c7r8.state.contact⟩] := by
  set_option maxRecDepth 10000 in decide
